import Mathlib

/-!
Shallow embedding of `src/tsne/tsne_caption_3d_scatter.py` from the
Joint-Text-and-Image-Representation repository.

The file models the single class `TSNECaption3DScatter`:
* numeric scalars are exact rationals; the one place where IEEE special
  values matter (the unguarded division `X_3d /= X_3d.max(axis=0)`) is
  modelled by the value type `FV`, which is either a finite rational or
  one of the float special values `nan`, `pinf`, `ninf`;
* the external t-SNE algorithm (`sklearn.manifold.TSNE`) is an opaque
  library call; theorems are parametric in a function receiving the
  constructor arguments of `TSNE` and the sliced activation matrix;
* the file system is a finite map from path strings to saved figures;
  `plt.savefig` overwrites the entry at the given path;
* Python exceptions are `Except PyError`; `os.path.exists` is an oracle
  `pathExists : String → Bool` passed to the constructor model.
-/

/-- A float-like scalar: a finite rational or an IEEE special value. -/
inductive FV where
  | nan : FV
  | pinf : FV
  | ninf : FV
  | fin : ℚ → FV
deriving DecidableEq, Repr

/-- IEEE-style division of finite scalars: division by zero yields `nan`
for `0 / 0` and a signed infinity otherwise; ordinary quotient of
rationals elsewhere. -/
def fdiv (a b : ℚ) : FV :=
  if b = 0 then (if a = 0 then FV.nan else if 0 < a then FV.pinf else FV.ninf)
  else FV.fin (a / b)

/-- A raw 3-dimensional t-SNE output row (finite floats). -/
abbrev Vec3 := ℚ × ℚ × ℚ

/-- A normalized 3-dimensional point, coordinates possibly `nan`. -/
abbrev FPoint := FV × FV × FV

/-- `numpy.ndarray.min` over a list (`X.min(axis=0)` acts per column);
`none` on an empty list, where numpy raises a zero-size reduction error. -/
def npMin : List ℚ → Option ℚ
  | [] => none
  | x :: xs => some (xs.foldl min x)

/-- `numpy.ndarray.max` over a list; `none` on an empty list. -/
def npMax : List ℚ → Option ℚ
  | [] => none
  | x :: xs => some (xs.foldl max x)

/-- One column of `X_3d -= X_3d.min(axis=0); X_3d /= X_3d.max(axis=0)`:
shift the column by its minimum, then divide by the maximum of the
shifted column (unguarded, so a constant column divides zero by zero). -/
def normalizeAxis (vs : List ℚ) : Option (List FV) :=
  match npMin vs with
  | none => none
  | some m =>
    let shifted := vs.map (fun v => v - m)
    match npMax shifted with
    | none => none
    | some mx => some (shifted.map (fun v => fdiv v mx))

/-- Pair the three normalized columns back into rows. -/
def zipPoints (xs ys zs : List FV) : List FPoint :=
  xs.zip (ys.zip zs)

/-- Lines 108–111 of `_generate_tsne`: per-axis min-max normalization of
the raw t-SNE output (the broadcasting over `axis=0` is modelled one
column at a time). -/
def generate_tsne_core (pts : List Vec3) : Option (List FPoint) := do
  let xs ← normalizeAxis (pts.map (fun p => p.1))
  let ys ← normalizeAxis (pts.map (fun p => p.2.1))
  let zs ← normalizeAxis (pts.map (fun p => p.2.2))
  some (zipPoints xs ys zs)

/-- The `init` keyword argument of `sklearn.manifold.TSNE`. -/
inductive TSNEInitMode where
  | pca : TSNEInitMode
  | random : TSNEInitMode
deriving DecidableEq, Repr

/-- The constructor arguments passed to `sklearn.manifold.TSNE` at line
106: `TSNE(perplexity=..., n_components=3, init='pca', n_iter=...)`. -/
structure TSNEParams where
  perplexity : ℤ
  n_components : ℕ
  initMode : TSNEInitMode
  n_iter : ℤ
deriving DecidableEq, Repr

/-- Python exceptions that the modelled code can raise or propagate. -/
inductive PyError where
  | valueError : String → PyError
  | indexError : PyError
  | numericError : String → PyError
  | ioError : String → PyError
deriving DecidableEq, Repr

/-- The state of a `TSNECaption3DScatter` object after `__init__` stores
its parameters.  `text_representation` is kept as the caption list
`texts`, the only part of it the class reads (`._texts`). -/
structure TSNECaption3DScatter where
  activations : List (List ℚ)
  texts : List String
  output_dimension : ℤ
  output_name : String
  output_directory : String
  perplexity : ℤ
  iterations : ℤ
  caption_size : ℤ
  output_size : ℤ × ℤ
  quality : ℤ
  to_plot : ℤ
deriving DecidableEq, Repr

/-- `TSNECaption3DScatter.__init__`: stores every parameter, derives
`to_plot = np.square(output_dimension)`, then raises `ValueError` when
`output_dimension == 1`, then raises `ValueError` when
`os.path.exists(output_directory)` is false. -/
def TSNECaption3DScatter.init (pathExists : String → Bool)
    (activations : List (List ℚ)) (texts : List String)
    (output_dimension : ℤ) (output_name output_directory : String)
    (perplexity iterations caption_size : ℤ) (output_size : ℤ × ℤ)
    (quality : ℤ) : Except PyError TSNECaption3DScatter :=
  let self : TSNECaption3DScatter :=
    ⟨activations, texts, output_dimension, output_name, output_directory,
     perplexity, iterations, caption_size, output_size, quality,
     output_dimension * output_dimension⟩
  if self.output_dimension = 1 then
    Except.error (PyError.valueError "Output scatter dimension 1x1 not supported.")
  else if pathExists self.output_directory = false then
    Except.error (PyError.valueError ("'" ++ self.output_directory ++ "' not a valid directory."))
  else
    Except.ok self

/-- The `TSNE(...)` arguments built at line 106 from the stored
configuration. -/
def tsneParamsOf (self : TSNECaption3DScatter) : TSNEParams :=
  ⟨self.perplexity, 3, TSNEInitMode.pca, self.iterations⟩

/-- The matrix handed to `fit_transform` at line 107:
`np.array(self.activations)[0:self.to_plot,:]`, i.e. the first
`to_plot` rows (Python slicing truncates at the matrix length). -/
def tsneInputOf (self : TSNECaption3DScatter) : List (List ℚ) :=
  self.activations.take self.to_plot.toNat

/-- Lift an optional value into `Except`, raising `e` on `none`. -/
def exceptOfOption (e : PyError) : Option α → Except PyError α
  | none => Except.error e
  | some a => Except.ok a

/-- `_generate_tsne`, parametric in the library t-SNE call `tsneE` (which
may itself raise): build the `TSNE` parameters, run `fit_transform` on
the first `to_plot` activation rows, then min-max normalize each axis. -/
def generate_tsne
    (tsneE : TSNEParams → List (List ℚ) → Except PyError (List Vec3))
    (self : TSNECaption3DScatter) : Except PyError (List FPoint) := do
  let raw ← tsneE (tsneParamsOf self) (tsneInputOf self)
  exceptOfOption (PyError.valueError "zero-size array to reduction operation") (generate_tsne_core raw)

/-- One drawing primitive issued on the matplotlib 3D axes. -/
inductive DrawCmd where
  | scatter : FPoint → DrawCmd
  | text : FPoint → String → ℤ → DrawCmd
deriving DecidableEq, Repr

/-- The loop of `_plot_tsne_scatter` (lines 126–128): for each point
index `i` issue `ax.scatter(x[i], y[i], z[i])` and then
`ax.text(x[i], y[i], z[i], texts[i], size=caption_size, ...)`; the
lookup `texts[i]` raises `IndexError` when the caption list is shorter
than the point list. -/
def plotScatterCmds (X_3d : List FPoint) (texts : List String)
    (caption_size : ℤ) : Option (List DrawCmd) :=
  if X_3d.length ≤ texts.length then
    some ((X_3d.zip texts).flatMap
      (fun pt => [DrawCmd.scatter pt.1, DrawCmd.text pt.1 pt.2 caption_size]))
  else none

/-- A saved figure: size, quality and the drawing commands it holds. -/
structure Figure where
  figsize : ℤ × ℤ
  quality : ℤ
  cmds : List DrawCmd
deriving DecidableEq, Repr

/-- The file system: an association list from paths to saved figures. -/
abbrev FS := List (String × Figure)

/-- `plt.savefig(path, ...)`: (over)write the entry at `path`. -/
def savefig (fs : FS) (path : String) (fig : Figure) : FS :=
  (path, fig) :: fs.filter (fun e => e.1 != path)

/-- `_plot_tsne_scatter`, parametric in the save effect: build the
scatter/text commands, then call `save` — note the source passes plain
`self.output_name` to `plt.savefig`, not a path inside
`self.output_directory`.  The `output_dimension` parameter is unused in
the source body and kept for signature fidelity. -/
def plot_tsne_scatter
    (save : FS → String → Figure → Except PyError FS)
    (self : TSNECaption3DScatter) (X_3d : List FPoint)
    (texts : List String) (_output_dimension : ℤ) (fs : FS) :
    Except PyError FS := do
  let cmds ← exceptOfOption PyError.indexError
    (plotScatterCmds X_3d texts self.caption_size)
  save fs self.output_name ⟨self.output_size, self.quality, cmds⟩

/-- `generate`: run `_generate_tsne`, then render and save via
`_plot_tsne_scatter` with the caption list `text_representation._texts`. -/
def TSNECaption3DScatter.generate
    (tsneE : TSNEParams → List (List ℚ) → Except PyError (List Vec3))
    (save : FS → String → Figure → Except PyError FS)
    (self : TSNECaption3DScatter) (fs : FS) : Except PyError FS := do
  let X_3d ← generate_tsne tsneE self
  plot_tsne_scatter save self X_3d self.texts self.output_dimension fs

/-- A t-SNE call that never raises, from a pure embedding function. -/
def okTsne (tsne : TSNEParams → List (List ℚ) → List Vec3) :
    TSNEParams → List (List ℚ) → Except PyError (List Vec3) :=
  fun p X => Except.ok (tsne p X)

/-- A save effect that never raises: plain `savefig` overwrite. -/
def okSave : FS → String → Figure → Except PyError FS :=
  fun fs path fig => Except.ok (savefig fs path fig)

/-- The output path the specification prescribes:
`<output_directory>/<output_name>`. -/
def specSavePath (self : TSNECaption3DScatter) : String :=
  self.output_directory ++ "/" ++ self.output_name

/-- A coordinate that is a finite value inside `[0, 1]`. -/
def inUnit (v : FV) : Prop :=
  ∃ q : ℚ, v = FV.fin q ∧ 0 ≤ q ∧ q ≤ 1

/-- First coordinates of a list of normalized points. -/
def axis1 (pts : List FPoint) : List FV := pts.map (fun p => p.1)

/-- Second coordinates of a list of normalized points. -/
def axis2 (pts : List FPoint) : List FV := pts.map (fun p => p.2.1)

/-- Third coordinates of a list of normalized points. -/
def axis3 (pts : List FPoint) : List FV := pts.map (fun p => p.2.2)

/-- First coordinates of a list of raw t-SNE rows. -/
def col1 (pts : List Vec3) : List ℚ := pts.map (fun p => p.1)

/-- Second coordinates of a list of raw t-SNE rows. -/
def col2 (pts : List Vec3) : List ℚ := pts.map (fun p => p.2.1)

/-- Third coordinates of a list of raw t-SNE rows. -/
def col3 (pts : List Vec3) : List ℚ := pts.map (fun p => p.2.2)

/-- A column taking at least two distinct values. -/
def Nonconstant (vs : List ℚ) : Prop :=
  ∃ a ∈ vs, ∃ b ∈ vs, a ≠ b

instance (vs : List ℚ) : Decidable (Nonconstant vs) :=
  decidable_of_iff (∃ a ∈ vs, ∃ b ∈ vs, a ≠ b) Iff.rfl

/-- The per-axis guarantee the specification states for the embedding:
every coordinate is a finite value in `[0, 1]`, and the values `0` and
`1` are attained (axis minimum `0`, axis maximum `1`). -/
def axisNormalized (ws : List FV) : Prop :=
  (∀ w ∈ ws, inUnit w) ∧ FV.fin 0 ∈ ws ∧ FV.fin 1 ∈ ws

/-- The text labels drawn by a command list, with their anchor points,
in drawing order. -/
def textEntries (cmds : List DrawCmd) : List (FPoint × String) :=
  cmds.filterMap (fun c =>
    match c with
    | DrawCmd.text p t _ => some (p, t)
    | _ => none)

/-! ### Concrete example inputs used to instantiate the theorems -/

/-- Path-existence oracle under which every directory exists. -/
def allPaths : String → Bool := fun _ => true

/-- Path-existence oracle under which no directory exists. -/
def noPaths : String → Bool := fun _ => false

/-- A small example activation matrix (four rows, one feature each). -/
def exActs : List (List ℚ) := [[0], [1], [2], [3]]

/-- Example caption list for the four activation rows. -/
def exTexts : List String := ["t0", "t1", "t2", "t3"]

/-- The renderer state built by a successful example construction with
grid dimension 2, output name `out.jpg`, output directory `./`. -/
def exSelf : TSNECaption3DScatter :=
  ⟨exActs, exTexts, 2, "out.jpg", "./", 50, 5000, 10, (50, 50), 100, 4⟩

/-- The renderer state built by a successful example construction whose
output directory is `/data/out` and whose output name is `img.jpg`. -/
def exSelfDir : TSNECaption3DScatter :=
  ⟨exActs, exTexts, 2, "img.jpg", "/data/out", 50, 5000, 10, (50, 50), 100, 4⟩

/-- A stand-in for the library t-SNE call: spread each row's first
feature along all three axes (one output row per input row). -/
def exTsne : TSNEParams → List (List ℚ) → List Vec3 :=
  fun _ X => X.map (fun r => (r.headD 0, r.headD 0, r.headD 0))

/-- A degenerate stand-in for the library t-SNE call whose output is
constant on the first axis (one output row per input row). -/
def exTsneConstX : TSNEParams → List (List ℚ) → List Vec3 :=
  fun _ X => X.map (fun r => ((5 : ℚ), r.headD 0, r.headD 0))

/-- The normalized embedding `exTsne` yields on `exSelf`. -/
def exOut : List FPoint :=
  [(FV.fin 0, FV.fin 0, FV.fin 0),
   (FV.fin (1/3), FV.fin (1/3), FV.fin (1/3)),
   (FV.fin (2/3), FV.fin (2/3), FV.fin (2/3)),
   (FV.fin 1, FV.fin 1, FV.fin 1)]

/-- The normalized embedding `exTsneConstX` yields on `exSelf`: every
first coordinate is `nan` because the first axis was constant. -/
def constXOut : List FPoint :=
  [(FV.nan, FV.fin 0, FV.fin 0),
   (FV.nan, FV.fin (1/3), FV.fin (1/3)),
   (FV.nan, FV.fin (2/3), FV.fin (2/3)),
   (FV.nan, FV.fin 1, FV.fin 1)]

/-- The drawing commands the example run issues. -/
def exCmds : List DrawCmd :=
  [DrawCmd.scatter (FV.fin 0, FV.fin 0, FV.fin 0),
   DrawCmd.text (FV.fin 0, FV.fin 0, FV.fin 0) "t0" 10,
   DrawCmd.scatter (FV.fin (1/3), FV.fin (1/3), FV.fin (1/3)),
   DrawCmd.text (FV.fin (1/3), FV.fin (1/3), FV.fin (1/3)) "t1" 10,
   DrawCmd.scatter (FV.fin (2/3), FV.fin (2/3), FV.fin (2/3)),
   DrawCmd.text (FV.fin (2/3), FV.fin (2/3), FV.fin (2/3)) "t2" 10,
   DrawCmd.scatter (FV.fin 1, FV.fin 1, FV.fin 1),
   DrawCmd.text (FV.fin 1, FV.fin 1, FV.fin 1) "t3" 10]

/-- The file system after the example run starting from an empty one. -/
def exFS : FS := [("out.jpg", ⟨(50, 50), 100, exCmds⟩)]

/-! ### Lemmas about the fold-based minimum and maximum -/

theorem foldl_min_le_init (xs : List ℚ) (x : ℚ) : xs.foldl min x ≤ x := by
  induction xs generalizing x with
  | nil => exact le_refl x
  | cons y ys ih =>
    exact le_trans (ih (min x y)) (min_le_left x y)

theorem foldl_min_le_mem (xs : List ℚ) (x v : ℚ) (hv : v ∈ xs) :
    xs.foldl min x ≤ v := by
  induction xs generalizing x with
  | nil => cases hv
  | cons y ys ih =>
    rcases List.mem_cons.mp hv with h | h
    · subst h
      exact le_trans (foldl_min_le_init ys (min x v)) (min_le_right x v)
    · exact ih (min x y) h

theorem foldl_min_mem (xs : List ℚ) (x : ℚ) :
    xs.foldl min x = x ∨ xs.foldl min x ∈ xs := by
  induction xs generalizing x with
  | nil => exact Or.inl rfl
  | cons y ys ih =>
    rcases ih (min x y) with h | h
    · rcases min_choice x y with hm | hm
      · exact Or.inl (h.trans hm)
      · exact Or.inr (List.mem_cons.mpr (Or.inl (h.trans hm)))
    · exact Or.inr (List.mem_cons.mpr (Or.inr h))

theorem foldl_max_init_le (xs : List ℚ) (x : ℚ) : x ≤ xs.foldl max x := by
  induction xs generalizing x with
  | nil => exact le_refl x
  | cons y ys ih =>
    exact le_trans (le_max_left x y) (ih (max x y))

theorem foldl_max_mem_le (xs : List ℚ) (x v : ℚ) (hv : v ∈ xs) :
    v ≤ xs.foldl max x := by
  induction xs generalizing x with
  | nil => cases hv
  | cons y ys ih =>
    rcases List.mem_cons.mp hv with h | h
    · subst h
      exact le_trans (le_max_right x v) (foldl_max_init_le ys (max x v))
    · exact ih (max x y) h

theorem foldl_max_mem (xs : List ℚ) (x : ℚ) :
    xs.foldl max x = x ∨ xs.foldl max x ∈ xs := by
  induction xs generalizing x with
  | nil => exact Or.inl rfl
  | cons y ys ih =>
    rcases ih (max x y) with h | h
    · rcases max_choice x y with hm | hm
      · exact Or.inl (h.trans hm)
      · exact Or.inr (List.mem_cons.mpr (Or.inl (h.trans hm)))
    · exact Or.inr (List.mem_cons.mpr (Or.inr h))

theorem npMin_eq_some (vs : List ℚ) (h : vs ≠ []) : ∃ m, npMin vs = some m := by
  cases vs with
  | nil => exact absurd rfl h
  | cons x xs => exact ⟨xs.foldl min x, rfl⟩

theorem npMin_mem (vs : List ℚ) (m : ℚ) (h : npMin vs = some m) : m ∈ vs := by
  cases vs with
  | nil => cases h
  | cons x xs =>
    cases h
    rcases foldl_min_mem xs x with h | h
    · rw [h]
      exact List.mem_cons_self x xs
    · exact List.mem_cons.mpr (Or.inr h)

theorem npMin_le (vs : List ℚ) (m : ℚ) (h : npMin vs = some m) :
    ∀ v ∈ vs, m ≤ v := by
  cases vs with
  | nil => cases h
  | cons x xs =>
    cases h
    intro v hv
    rcases List.mem_cons.mp hv with h | h
    · exact h ▸ foldl_min_le_init xs x
    · exact foldl_min_le_mem xs x v h

theorem npMax_eq_some (vs : List ℚ) (h : vs ≠ []) : ∃ m, npMax vs = some m := by
  cases vs with
  | nil => exact absurd rfl h
  | cons x xs => exact ⟨xs.foldl max x, rfl⟩

theorem npMax_mem (vs : List ℚ) (m : ℚ) (h : npMax vs = some m) : m ∈ vs := by
  cases vs with
  | nil => cases h
  | cons x xs =>
    cases h
    rcases foldl_max_mem xs x with h | h
    · rw [h]
      exact List.mem_cons_self x xs
    · exact List.mem_cons.mpr (Or.inr h)

theorem npMax_ge (vs : List ℚ) (m : ℚ) (h : npMax vs = some m) :
    ∀ v ∈ vs, v ≤ m := by
  cases vs with
  | nil => cases h
  | cons x xs =>
    cases h
    intro v hv
    rcases List.mem_cons.mp hv with h | h
    · exact h ▸ foldl_max_init_le xs x
    · exact foldl_max_mem_le xs x v h

/-! ### The per-axis normalization -/

theorem normalizeAxis_eq (vs : List ℚ) (m mx : ℚ)
    (hm : npMin vs = some m)
    (hmx : npMax (vs.map (fun v => v - m)) = some mx) :
    normalizeAxis vs =
      some ((vs.map (fun v => v - m)).map (fun v => fdiv v mx)) := by
  simp only [normalizeAxis, hm, hmx]

theorem fdiv_of_ne_zero (a b : ℚ) (hb : b ≠ 0) : fdiv a b = FV.fin (a / b) := by
  simp [fdiv, hb]

/-- On a column with at least two distinct values, the normalization
succeeds, keeps the column length, maps every entry to a finite value in
`[0, 1]`, and attains both `0` and `1`. -/
theorem normalizeAxis_nonconstant (vs : List ℚ) (h : Nonconstant vs) :
    ∃ ws, normalizeAxis vs = some ws ∧ ws.length = vs.length ∧
      axisNormalized ws := by
  obtain ⟨a, ha, b, hb, hab⟩ := h
  have hne : vs ≠ [] := List.ne_nil_of_mem ha
  obtain ⟨m, hm⟩ := npMin_eq_some vs hne
  have hshne : vs.map (fun v => v - m) ≠ [] := by
    simpa using hne
  obtain ⟨mx, hmx⟩ := npMax_eq_some _ hshne
  have hmle : ∀ v ∈ vs, m ≤ v := npMin_le vs m hm
  have hmxge : ∀ v ∈ vs, v - m ≤ mx := by
    intro v hv
    exact npMax_ge _ mx hmx _ (List.mem_map_of_mem _ hv)
  have hmxpos : 0 < mx := by
    by_contra hle
    push_neg at hle
    have hA : a = m := le_antisymm (by linarith [hmxge a ha]) (hmle a ha)
    have hB : b = m := le_antisymm (by linarith [hmxge b hb]) (hmle b hb)
    exact hab (hA.trans hB.symm)
  have hmxne : mx ≠ 0 := ne_of_gt hmxpos
  refine ⟨(vs.map (fun v => v - m)).map (fun v => fdiv v mx),
    normalizeAxis_eq vs m mx hm hmx, by simp, ?_, ?_, ?_⟩
  · intro w hw
    simp only [List.map_map, List.mem_map, Function.comp] at hw
    obtain ⟨v, hv, rfl⟩ := hw
    refine ⟨(v - m) / mx, fdiv_of_ne_zero _ _ hmxne, ?_, ?_⟩
    · exact div_nonneg (by linarith [hmle v hv]) (le_of_lt hmxpos)
    · exact (div_le_one hmxpos).mpr (hmxge v hv)
  · have h0 : (0 : ℚ) ∈ vs.map (fun v => v - m) := by
      refine List.mem_map.mpr ⟨m, npMin_mem vs m hm, ?_⟩
      ring
    refine List.mem_map.mpr ⟨0, h0, ?_⟩
    rw [fdiv_of_ne_zero _ _ hmxne, zero_div]
  · refine List.mem_map.mpr ⟨mx, npMax_mem _ mx hmx, ?_⟩
    rw [fdiv_of_ne_zero _ _ hmxne, div_self hmxne]

/-! ### Recombining the three normalized columns -/

theorem length_zipPoints (xs ys zs : List FV)
    (h1 : ys.length = xs.length) (h2 : zs.length = xs.length) :
    (zipPoints xs ys zs).length = xs.length := by
  simp [zipPoints, h1, h2]

theorem axis1_zipPoints (xs ys zs : List FV)
    (h1 : ys.length = xs.length) (h2 : zs.length = xs.length) :
    axis1 (zipPoints xs ys zs) = xs := by
  apply List.map_fst_zip
  simp [h1, h2]

theorem axis2_zipPoints (xs ys zs : List FV)
    (h1 : ys.length = xs.length) (h2 : zs.length = xs.length) :
    axis2 (zipPoints xs ys zs) = ys := by
  have hsnd : List.map Prod.snd (zipPoints xs ys zs) = ys.zip zs := by
    apply List.map_snd_zip
    simp [h1, h2]
  have : axis2 (zipPoints xs ys zs) =
      List.map Prod.fst (List.map Prod.snd (zipPoints xs ys zs)) := by
    simp [axis2, List.map_map]
  rw [this, hsnd]
  apply List.map_fst_zip
  simp [h1, h2]

theorem axis3_zipPoints (xs ys zs : List FV)
    (h1 : ys.length = xs.length) (h2 : zs.length = xs.length) :
    axis3 (zipPoints xs ys zs) = zs := by
  have hsnd : List.map Prod.snd (zipPoints xs ys zs) = ys.zip zs := by
    apply List.map_snd_zip
    simp [h1, h2]
  have : axis3 (zipPoints xs ys zs) =
      List.map Prod.snd (List.map Prod.snd (zipPoints xs ys zs)) := by
    simp [axis3, List.map_map]
  rw [this, hsnd]
  apply List.map_snd_zip
  simp [h1, h2]

/-- When every raw column has two distinct values, the full normalization
step of `_generate_tsne` succeeds, returns one point per raw row, and
every axis of the result is min-max normalized onto `[0, 1]`. -/
theorem generate_tsne_core_nonconstant (pts : List Vec3)
    (h1 : Nonconstant (col1 pts)) (h2 : Nonconstant (col2 pts))
    (h3 : Nonconstant (col3 pts)) :
    ∃ out, generate_tsne_core pts = some out ∧ out.length = pts.length ∧
      axisNormalized (axis1 out) ∧ axisNormalized (axis2 out) ∧
      axisNormalized (axis3 out) := by
  obtain ⟨ws1, hw1, hl1, hn1⟩ := normalizeAxis_nonconstant _ h1
  obtain ⟨ws2, hw2, hl2, hn2⟩ := normalizeAxis_nonconstant _ h2
  obtain ⟨ws3, hw3, hl3, hn3⟩ := normalizeAxis_nonconstant _ h3
  simp only [col1, col2, col3, List.length_map] at hl1 hl2 hl3
  have e1 : ws2.length = ws1.length := by rw [hl2, hl1]
  have e2 : ws3.length = ws1.length := by rw [hl3, hl1]
  refine ⟨zipPoints ws1 ws2 ws3, ?_, ?_, ?_, ?_, ?_⟩
  · simp only [generate_tsne_core, col1, col2, col3] at hw1 hw2 hw3 ⊢
    rw [hw1, hw2, hw3]
    rfl
  · rw [length_zipPoints ws1 ws2 ws3 e1 e2, hl1]
  · rw [axis1_zipPoints ws1 ws2 ws3 e1 e2]
    exact hn1
  · rw [axis2_zipPoints ws1 ws2 ws3 e1 e2]
    exact hn2
  · rw [axis3_zipPoints ws1 ws2 ws3 e1 e2]
    exact hn3

/-! ### Constructor inversion and plotting lemmas -/

theorem init_eq_ok (pathExists : String → Bool)
    (activations : List (List ℚ)) (texts : List String)
    (output_dimension : ℤ) (output_name output_directory : String)
    (perplexity iterations caption_size : ℤ) (output_size : ℤ × ℤ)
    (quality : ℤ) (self : TSNECaption3DScatter)
    (h : TSNECaption3DScatter.init pathExists activations texts
      output_dimension output_name output_directory perplexity iterations
      caption_size output_size quality = Except.ok self) :
    output_dimension ≠ 1 ∧ pathExists output_directory = true ∧
    self = ⟨activations, texts, output_dimension, output_name,
      output_directory, perplexity, iterations, caption_size, output_size,
      quality, output_dimension * output_dimension⟩ := by
  by_cases h1 : output_dimension = 1
  · simp [TSNECaption3DScatter.init, h1] at h
  · by_cases h2 : pathExists output_directory = false
    · simp [TSNECaption3DScatter.init, h1, h2] at h
    · rw [Bool.not_eq_false] at h2
      simp [TSNECaption3DScatter.init, h1, h2] at h
      exact ⟨h1, h2, h.symm⟩

theorem map_snd_zip_take {α β : Type} :
    ∀ (l₁ : List α) (l₂ : List β), l₁.length ≤ l₂.length →
      (l₁.zip l₂).map Prod.snd = l₂.take l₁.length
  | [], _, _ => by simp
  | _ :: _, [], h => by simp at h
  | a :: l₁, b :: l₂, h => by
    simp only [List.zip_cons_cons, List.map_cons, List.length_cons,
      List.take_succ_cons]
    rw [map_snd_zip_take l₁ l₂ (Nat.le_of_succ_le_succ h)]

theorem textEntries_flatMap (l : List (FPoint × String)) (cs : ℤ) :
    textEntries (l.flatMap
      (fun pt => [DrawCmd.scatter pt.1, DrawCmd.text pt.1 pt.2 cs])) = l := by
  induction l with
  | nil => rfl
  | cons p rest ih =>
    simp only [List.flatMap_cons, textEntries, List.filterMap_append] at ih ⊢
    simp [ih]

theorem plotScatterCmds_eq_some (X_3d : List FPoint) (texts : List String)
    (cs : ℤ) (cmds : List DrawCmd)
    (h : plotScatterCmds X_3d texts cs = some cmds) :
    X_3d.length ≤ texts.length ∧
    cmds = (X_3d.zip texts).flatMap
      (fun pt => [DrawCmd.scatter pt.1, DrawCmd.text pt.1 pt.2 cs]) := by
  by_cases hle : X_3d.length ≤ texts.length
  · refine ⟨hle, ?_⟩
    simp only [plotScatterCmds, if_pos hle, Option.some_inj] at h
    exact h.symm
  · simp [plotScatterCmds, hle] at h

theorem savefig_idem (fs : FS) (path : String) (fig : Figure) :
    savefig (savefig fs path fig) path fig = savefig fs path fig := by
  simp [savefig, List.filter_cons, List.filter_filter]

/-! ### Evaluation lemmas for the concrete examples -/

theorem generate_tsne_core_exTsne :
    generate_tsne_core
      [((0 : ℚ), (0 : ℚ), (0 : ℚ)), (1, 1, 1), (2, 2, 2), (3, 3, 3)] =
      some exOut := by
  norm_num [generate_tsne_core, normalizeAxis, npMin, npMax, fdiv, zipPoints,
    exOut, Option.bind, Function.comp, min_def, max_def, List.foldl]

theorem generate_tsne_core_constX :
    generate_tsne_core
      [((5 : ℚ), (0 : ℚ), (0 : ℚ)), (5, 1, 1), (5, 2, 2), (5, 3, 3)] =
      some constXOut := by
  norm_num [generate_tsne_core, normalizeAxis, npMin, npMax, fdiv, zipPoints,
    constXOut, Option.bind, Function.comp, min_def, max_def, List.foldl]

theorem exTsne_embed_eval :
    generate_tsne (okTsne exTsne) exSelf = Except.ok exOut := by
  show exceptOfOption
    (PyError.valueError "zero-size array to reduction operation")
    (generate_tsne_core (exTsne (tsneParamsOf exSelf) (tsneInputOf exSelf)))
    = Except.ok exOut
  rw [show exTsne (tsneParamsOf exSelf) (tsneInputOf exSelf) =
    [((0 : ℚ), (0 : ℚ), (0 : ℚ)), (1, 1, 1), (2, 2, 2), (3, 3, 3)] from rfl,
    generate_tsne_core_exTsne]
  rfl

theorem exTsne_embed_eval_dir :
    generate_tsne (okTsne exTsne) exSelfDir = Except.ok exOut := by
  show exceptOfOption
    (PyError.valueError "zero-size array to reduction operation")
    (generate_tsne_core
      (exTsne (tsneParamsOf exSelfDir) (tsneInputOf exSelfDir)))
    = Except.ok exOut
  rw [show exTsne (tsneParamsOf exSelfDir) (tsneInputOf exSelfDir) =
    [((0 : ℚ), (0 : ℚ), (0 : ℚ)), (1, 1, 1), (2, 2, 2), (3, 3, 3)] from rfl,
    generate_tsne_core_exTsne]
  rfl

theorem constX_embed_eval :
    generate_tsne (okTsne exTsneConstX) exSelf = Except.ok constXOut := by
  show exceptOfOption
    (PyError.valueError "zero-size array to reduction operation")
    (generate_tsne_core
      (exTsneConstX (tsneParamsOf exSelf) (tsneInputOf exSelf)))
    = Except.ok constXOut
  rw [show exTsneConstX (tsneParamsOf exSelf) (tsneInputOf exSelf) =
    [((5 : ℚ), (0 : ℚ), (0 : ℚ)), (5, 1, 1), (5, 2, 2), (5, 3, 3)] from rfl,
    generate_tsne_core_constX]
  rfl

theorem generate_ex_eval (fs : FS) :
    TSNECaption3DScatter.generate (okTsne exTsne) okSave exSelf fs =
      Except.ok (savefig fs "out.jpg" ⟨(50, 50), 100, exCmds⟩) := by
  simp only [TSNECaption3DScatter.generate]
  rw [exTsne_embed_eval]
  rfl

theorem generate_ex_eval_dir (fs : FS) :
    TSNECaption3DScatter.generate (okTsne exTsne) okSave exSelfDir fs =
      Except.ok (savefig fs "img.jpg" ⟨(50, 50), 100, exCmds⟩) := by
  simp only [TSNECaption3DScatter.generate]
  rw [exTsne_embed_eval_dir]
  rfl

/-! ### Claim theorems -/

/-- C3: for every configuration whose grid dimension (`output_dimension`)
equals 1, construction fails synchronously with the configuration
`ValueError` "Output scatter dimension 1x1 not supported.", regardless
of every other parameter. -/
theorem C3_dimension_one_always_fails (pathExists : String → Bool)
    (activations : List (List ℚ)) (texts : List String)
    (output_name output_directory : String)
    (perplexity iterations caption_size : ℤ)
    (output_size : ℤ × ℤ) (quality : ℤ) :
    TSNECaption3DScatter.init pathExists activations texts 1 output_name
      output_directory perplexity iterations caption_size output_size
      quality =
    Except.error
      (PyError.valueError "Output scatter dimension 1x1 not supported.") := by
  simp [TSNECaption3DScatter.init]

/-- C4: construction fails with a configuration `ValueError` whenever the
output directory does not exist, and the directory check passes — the
constructor succeeds — when the directory exists and the grid dimension
is not 1. -/
theorem C4_directory_must_exist (pathExists : String → Bool)
    (activations : List (List ℚ)) (texts : List String)
    (output_dimension : ℤ) (output_name output_directory : String)
    (perplexity iterations caption_size : ℤ)
    (output_size : ℤ × ℤ) (quality : ℤ) :
    (pathExists output_directory = false →
      ∃ msg, TSNECaption3DScatter.init pathExists activations texts
        output_dimension output_name output_directory perplexity iterations
        caption_size output_size quality =
        Except.error (PyError.valueError msg)) ∧
    (pathExists output_directory = true → output_dimension ≠ 1 →
      ∃ self, TSNECaption3DScatter.init pathExists activations texts
        output_dimension output_name output_directory perplexity iterations
        caption_size output_size quality = Except.ok self) := by
  constructor
  · intro hdir
    by_cases h1 : output_dimension = 1
    · exact ⟨"Output scatter dimension 1x1 not supported.",
        by simp [TSNECaption3DScatter.init, h1]⟩
    · exact ⟨"'" ++ output_directory ++ "' not a valid directory.",
        by simp [TSNECaption3DScatter.init, h1, hdir]⟩
  · intro hdir h1
    exact ⟨⟨activations, texts, output_dimension, output_name,
      output_directory, perplexity, iterations, caption_size, output_size,
      quality, output_dimension * output_dimension⟩,
      by simp [TSNECaption3DScatter.init, h1, hdir]⟩

/-- C4 witness: with the example parameters, construction fails when no
directory exists and succeeds when the directory exists. -/
theorem C4_directory_must_exist_witness :
    (∃ msg, TSNECaption3DScatter.init noPaths exActs exTexts 2 "out.jpg"
      "./" 50 5000 10 (50, 50) 100 =
      Except.error (PyError.valueError msg)) ∧
    (∃ self, TSNECaption3DScatter.init allPaths exActs exTexts 2 "out.jpg"
      "./" 50 5000 10 (50, 50) 100 = Except.ok self) :=
  ⟨(C4_directory_must_exist noPaths exActs exTexts 2 "out.jpg" "./" 50 5000
      10 (50, 50) 100).1 rfl,
   (C4_directory_must_exist allPaths exActs exTexts 2 "out.jpg" "./" 50 5000
      10 (50, 50) 100).2 rfl (by decide)⟩

/-- C10: construction rejects only the exact grid dimension 1: with an
existing output directory, any dimension ≤ 0 (zero or negative) passes
validation, and the derived point count is the square of the
dimension. -/
theorem C10_nonpositive_dimension_accepted (pathExists : String → Bool)
    (activations : List (List ℚ)) (texts : List String)
    (output_dimension : ℤ) (output_name output_directory : String)
    (perplexity iterations caption_size : ℤ)
    (output_size : ℤ × ℤ) (quality : ℤ)
    (hdim : output_dimension ≤ 0)
    (hdir : pathExists output_directory = true) :
    ∃ self, TSNECaption3DScatter.init pathExists activations texts
      output_dimension output_name output_directory perplexity iterations
      caption_size output_size quality = Except.ok self ∧
      self.to_plot = output_dimension * output_dimension := by
  have h1 : output_dimension ≠ 1 := by omega
  exact ⟨⟨activations, texts, output_dimension, output_name,
    output_directory, perplexity, iterations, caption_size, output_size,
    quality, output_dimension * output_dimension⟩,
    by simp [TSNECaption3DScatter.init, h1, hdir], rfl⟩

/-- C10 witness: grid dimension −3 with an existing directory constructs
successfully with 9 points to plot. -/
theorem C10_nonpositive_dimension_accepted_witness :
    ∃ self, TSNECaption3DScatter.init allPaths exActs exTexts (-3)
      "out.jpg" "./" 50 5000 10 (50, 50) 100 = Except.ok self ∧
      self.to_plot = (-3 : ℤ) * (-3) :=
  C10_nonpositive_dimension_accepted allPaths exActs exTexts (-3) "out.jpg"
    "./" 50 5000 10 (50, 50) 100 (by decide) rfl

/-- C6: after a successful construction, the t-SNE reduction is
configured with exactly 3 components, PCA initialization, the configured
perplexity and the configured iteration count; the derived point count
is grid_dimension²; and `fit_transform` receives exactly the first
grid_dimension² rows of the activation matrix in their original order. -/
theorem C6_tsne_input_and_params (pathExists : String → Bool)
    (activations : List (List ℚ)) (texts : List String)
    (output_dimension : ℤ) (output_name output_directory : String)
    (perplexity iterations caption_size : ℤ)
    (output_size : ℤ × ℤ) (quality : ℤ) (self : TSNECaption3DScatter)
    (h : TSNECaption3DScatter.init pathExists activations texts
      output_dimension output_name output_directory perplexity iterations
      caption_size output_size quality = Except.ok self)
    (hrows : (output_dimension * output_dimension).toNat ≤
      activations.length) :
    tsneParamsOf self = ⟨perplexity, 3, TSNEInitMode.pca, iterations⟩ ∧
    self.to_plot = output_dimension * output_dimension ∧
    (tsneInputOf self).length =
      (output_dimension * output_dimension).toNat ∧
    (∀ i, i < (output_dimension * output_dimension).toNat →
      (tsneInputOf self)[i]? = activations[i]?) := by
  obtain ⟨h1, h2, rfl⟩ :=
    init_eq_ok pathExists activations texts output_dimension output_name
      output_directory perplexity iterations caption_size output_size
      quality self h
  refine ⟨rfl, rfl, ?_, ?_⟩
  · simp only [tsneInputOf, List.length_take]
    omega
  · intro i hi
    simp only [tsneInputOf]
    exact List.getElem?_take_of_lt hi

/-- C6 witness: the example construction is configured with perplexity
50, 3 components, PCA initialization and 5000 iterations, and slices the
first 4 rows unchanged. -/
theorem C6_tsne_input_and_params_witness :
    tsneParamsOf exSelf = ⟨50, 3, TSNEInitMode.pca, 5000⟩ ∧
    exSelf.to_plot = (2 : ℤ) * 2 ∧
    (tsneInputOf exSelf).length = ((2 : ℤ) * 2).toNat ∧
    (∀ i, i < ((2 : ℤ) * 2).toNat →
      (tsneInputOf exSelf)[i]? = exActs[i]?) :=
  C6_tsne_input_and_params allPaths exActs exTexts 2 "out.jpg" "./" 50 5000
    10 (50, 50) 100 exSelf rfl (by decide)

/-- C1 (amended): for every configuration that passes construction and
every activation matrix with at least grid_dimension² rows, provided the
t-SNE output has one row per input row and each of its three axes takes
at least two distinct values (is not constant), `_generate_tsne` returns
exactly grid_dimension² points, each of the 3 coordinates of every point
is a finite value in [0, 1], and each of the three axes attains both 0
(its minimum over the returned points) and 1 (its maximum). -/
theorem C1_embedding_normalized
    (tsne : TSNEParams → List (List ℚ) → List Vec3)
    (pathExists : String → Bool)
    (activations : List (List ℚ)) (texts : List String)
    (output_dimension : ℤ) (output_name output_directory : String)
    (perplexity iterations caption_size : ℤ)
    (output_size : ℤ × ℤ) (quality : ℤ) (self : TSNECaption3DScatter)
    (hinit : TSNECaption3DScatter.init pathExists activations texts
      output_dimension output_name output_directory perplexity iterations
      caption_size output_size quality = Except.ok self)
    (hrows : (output_dimension * output_dimension).toNat ≤
      activations.length)
    (hlen : (tsne (tsneParamsOf self) (tsneInputOf self)).length =
      (tsneInputOf self).length)
    (h1 : Nonconstant (col1 (tsne (tsneParamsOf self) (tsneInputOf self))))
    (h2 : Nonconstant (col2 (tsne (tsneParamsOf self) (tsneInputOf self))))
    (h3 : Nonconstant (col3 (tsne (tsneParamsOf self) (tsneInputOf self)))) :
    ∃ out, generate_tsne (okTsne tsne) self = Except.ok out ∧
      out.length = (output_dimension * output_dimension).toNat ∧
      (∀ p ∈ out, inUnit p.1 ∧ inUnit p.2.1 ∧ inUnit p.2.2) ∧
      axisNormalized (axis1 out) ∧ axisNormalized (axis2 out) ∧
      axisNormalized (axis3 out) := by
  obtain ⟨out, hout, hlenout, hn1, hn2, hn3⟩ :=
    generate_tsne_core_nonconstant _ h1 h2 h3
  refine ⟨out, ?_, ?_, ?_, hn1, hn2, hn3⟩
  · show exceptOfOption
      (PyError.valueError "zero-size array to reduction operation")
      (generate_tsne_core (tsne (tsneParamsOf self) (tsneInputOf self))) =
      Except.ok out
    rw [hout]
    rfl
  · obtain ⟨hd1, hd2, hself⟩ :=
      init_eq_ok pathExists activations texts output_dimension output_name
        output_directory perplexity iterations caption_size output_size
        quality self hinit
    rw [hlenout, hlen]
    subst hself
    simp only [tsneInputOf, List.length_take]
    omega
  · intro p hp
    exact ⟨hn1.1 _ (List.mem_map_of_mem _ hp),
      hn2.1 _ (List.mem_map_of_mem _ hp),
      hn3.1 _ (List.mem_map_of_mem _ hp)⟩

/-- C1 witness: the example run (grid dimension 2, four activation rows,
a length-preserving t-SNE stand-in with three non-constant axes) returns
4 points, every coordinate finite in [0, 1], every axis attaining 0 and
1. -/
theorem C1_embedding_normalized_witness :
    ∃ out, generate_tsne (okTsne exTsne) exSelf = Except.ok out ∧
      out.length = ((2 : ℤ) * 2).toNat ∧
      (∀ p ∈ out, inUnit p.1 ∧ inUnit p.2.1 ∧ inUnit p.2.2) ∧
      axisNormalized (axis1 out) ∧ axisNormalized (axis2 out) ∧
      axisNormalized (axis3 out) :=
  C1_embedding_normalized exTsne allPaths exActs exTexts 2 "out.jpg" "./"
    50 5000 10 (50, 50) 100 exSelf rfl (by decide) rfl (by decide)
    (by decide) (by decide)

/-- C1 counterexample: with the valid example configuration (grid
dimension 2, existing directory, 4 = grid_dimension² activation rows)
and a t-SNE output with one row per input row but a constant first axis,
`_generate_tsne` returns points whose first coordinates are all `nan`:
they are not values in [0, 1], and the first axis attains neither 0 nor
1 — so the claim as stated (for every activation matrix, without a
non-constant-axis proviso) is false. -/
theorem C1_embedding_normalized_counterexample :
    TSNECaption3DScatter.init allPaths exActs exTexts 2 "out.jpg" "./" 50
      5000 10 (50, 50) 100 = Except.ok exSelf ∧
    (exTsneConstX (tsneParamsOf exSelf) (tsneInputOf exSelf)).length =
      (tsneInputOf exSelf).length ∧
    generate_tsne (okTsne exTsneConstX) exSelf = Except.ok constXOut ∧
    constXOut.length = ((2 : ℤ) * 2).toNat ∧
    FV.nan ∈ axis1 constXOut ∧
    ¬ inUnit FV.nan ∧
    ¬ (∀ p ∈ constXOut, inUnit p.1) ∧
    FV.fin 0 ∉ axis1 constXOut ∧
    FV.fin 1 ∉ axis1 constXOut := by
  refine ⟨rfl, rfl, constX_embed_eval, by decide, by decide, ?_, ?_,
    by decide, by decide⟩
  · rintro ⟨q, hq, -⟩
    cases hq
  · intro hall
    obtain ⟨q, hq, -⟩ := hall (FV.nan, FV.fin 0, FV.fin 0) (by decide)
    cases hq

/-- C9: the per-axis normalization divides by the maximum of the
min-shifted coordinates with no zero guard: on a t-SNE output whose
first axis is constant across the plotted points, that maximum is 0,
the division is 0/0, and every returned first coordinate is `nan`
rather than a value in [0, 1] (the other two axes normalize as usual). -/
theorem C9_constant_axis_yields_nan :
    (∀ v ∈ col1 (exTsneConstX (tsneParamsOf exSelf) (tsneInputOf exSelf)),
      v = 5) ∧
    generate_tsne (okTsne exTsneConstX) exSelf = Except.ok constXOut ∧
    (∀ v ∈ axis1 constXOut, v = FV.nan) ∧
    fdiv 0 0 = FV.nan ∧
    ¬ inUnit FV.nan := by
  refine ⟨by decide, constX_embed_eval, by decide, rfl, ?_⟩
  rintro ⟨q, hq, -⟩
  cases hq

/-- C5: in every successful render, the sequence of text commands is in
bijection with the plotted points: the i-th text label is anchored at
point i and carries exactly caption i, for every i below the number of
plotted points. -/
theorem C5_caption_alignment (X_3d : List FPoint) (texts : List String)
    (cs : ℤ) (cmds : List DrawCmd)
    (h : plotScatterCmds X_3d texts cs = some cmds) :
    (textEntries cmds).map Prod.fst = X_3d ∧
    (textEntries cmds).map Prod.snd = texts.take X_3d.length ∧
    ∀ i, i < X_3d.length →
      ((textEntries cmds).map Prod.snd)[i]? = texts[i]? := by
  obtain ⟨hle, rfl⟩ := plotScatterCmds_eq_some X_3d texts cs cmds h
  rw [textEntries_flatMap]
  refine ⟨List.map_fst_zip X_3d texts hle,
    map_snd_zip_take X_3d texts hle, ?_⟩
  intro i hi
  rw [map_snd_zip_take X_3d texts hle]
  exact List.getElem?_take_of_lt hi

/-- C5 witness: the example render carries captions t0–t3 on points
0–3 in order. -/
theorem C5_caption_alignment_witness :
    (textEntries exCmds).map Prod.fst = exOut ∧
    (textEntries exCmds).map Prod.snd = exTexts.take exOut.length ∧
    ∀ i, i < exOut.length →
      ((textEntries exCmds).map Prod.snd)[i]? = exTexts[i]? :=
  C5_caption_alignment exOut exTexts 10 exCmds rfl

/-- C2 evaluation: with output directory `/data/out` and output name
`img.jpg`, a successful `generate()` writes the single file at the bare
output name `img.jpg` (resolved in the process working directory) —
`_plot_tsne_scatter` passes only `self.output_name` to `plt.savefig` —
and not at the spec-prescribed path `/data/out/img.jpg`. -/
theorem C2_save_ignores_directory :
    TSNECaption3DScatter.init allPaths exActs exTexts 2 "img.jpg"
      "/data/out" 50 5000 10 (50, 50) 100 = Except.ok exSelfDir ∧
    TSNECaption3DScatter.generate (okTsne exTsne) okSave exSelfDir [] =
      Except.ok [("img.jpg", ⟨(50, 50), 100, exCmds⟩)] ∧
    specSavePath exSelfDir = "/data/out/img.jpg" ∧
    ("img.jpg" : String) ≠ "/data/out/img.jpg" := by
  refine ⟨rfl, ?_, rfl, by decide⟩
  rw [generate_ex_eval_dir]
  rfl

/-- C7: `generate()` takes no recovery path: an error raised by the
t-SNE step propagates unchanged to the caller, and an error raised by
the file save (after a successful embedding and render) propagates
unchanged; no alternative result is produced. -/
theorem C7_errors_propagate
    (tsneE : TSNEParams → List (List ℚ) → Except PyError (List Vec3))
    (save : FS → String → Figure → Except PyError FS)
    (self : TSNECaption3DScatter) (fs : FS) (e : PyError) :
    (tsneE (tsneParamsOf self) (tsneInputOf self) = Except.error e →
      TSNECaption3DScatter.generate tsneE save self fs = Except.error e) ∧
    (∀ X_3d cmds, generate_tsne tsneE self = Except.ok X_3d →
      plotScatterCmds X_3d self.texts self.caption_size = some cmds →
      save fs self.output_name ⟨self.output_size, self.quality, cmds⟩ =
        Except.error e →
      TSNECaption3DScatter.generate tsneE save self fs = Except.error e) := by
  constructor
  · intro h
    simp only [TSNECaption3DScatter.generate, generate_tsne, h]
    rfl
  · intro X_3d cmds h1 h2 h3
    simp only [TSNECaption3DScatter.generate, h1]
    show plot_tsne_scatter save self X_3d self.texts self.output_dimension
      fs = Except.error e
    simp only [plot_tsne_scatter, h2]
    exact h3

/-- C7 witness: a raising t-SNE call and a raising save each propagate
their exact error through `generate()` on the example configuration. -/
theorem C7_errors_propagate_witness :
    TSNECaption3DScatter.generate
      (fun _ _ => Except.error (PyError.numericError "tsne diverged"))
      okSave exSelf [] =
      Except.error (PyError.numericError "tsne diverged") ∧
    TSNECaption3DScatter.generate (okTsne exTsne)
      (fun _ _ _ => Except.error (PyError.ioError "disk full")) exSelf [] =
      Except.error (PyError.ioError "disk full") :=
  ⟨(C7_errors_propagate
      (fun _ _ => Except.error (PyError.numericError "tsne diverged"))
      okSave exSelf [] (PyError.numericError "tsne diverged")).1 rfl,
   (C7_errors_propagate (okTsne exTsne)
      (fun _ _ _ => Except.error (PyError.ioError "disk full")) exSelf []
      (PyError.ioError "disk full")).2 exOut exCmds exTsne_embed_eval rfl
      rfl⟩

theorem generate_eq_error
    (tsneE : TSNEParams → List (List ℚ) → Except PyError (List Vec3))
    (save : FS → String → Figure → Except PyError FS)
    (self : TSNECaption3DScatter) (fs : FS) (e : PyError)
    (hX : generate_tsne tsneE self = Except.error e) :
    TSNECaption3DScatter.generate tsneE save self fs = Except.error e := by
  simp only [TSNECaption3DScatter.generate, hX]
  rfl

theorem generate_eq_save
    (tsneE : TSNEParams → List (List ℚ) → Except PyError (List Vec3))
    (save : FS → String → Figure → Except PyError FS)
    (self : TSNECaption3DScatter) (fs : FS) (X_3d : List FPoint)
    (cmds : List DrawCmd)
    (hX : generate_tsne tsneE self = Except.ok X_3d)
    (hc : plotScatterCmds X_3d self.texts self.caption_size = some cmds) :
    TSNECaption3DScatter.generate tsneE save self fs =
      save fs self.output_name
        ⟨self.output_size, self.quality, cmds⟩ := by
  simp only [TSNECaption3DScatter.generate, hX]
  show plot_tsne_scatter save self X_3d self.texts self.output_dimension
    fs = _
  simp only [plot_tsne_scatter, hc]
  rfl

theorem generate_eq_indexError
    (tsneE : TSNEParams → List (List ℚ) → Except PyError (List Vec3))
    (save : FS → String → Figure → Except PyError FS)
    (self : TSNECaption3DScatter) (fs : FS) (X_3d : List FPoint)
    (hX : generate_tsne tsneE self = Except.ok X_3d)
    (hc : plotScatterCmds X_3d self.texts self.caption_size = none) :
    TSNECaption3DScatter.generate tsneE save self fs =
      Except.error PyError.indexError := by
  simp only [TSNECaption3DScatter.generate, hX]
  show plot_tsne_scatter save self X_3d self.texts self.output_dimension
    fs = _
  simp only [plot_tsne_scatter, hc]
  rfl

/-- C8: if `generate()` succeeds once, running it again with the same
renderer, inputs and configuration on the resulting file system succeeds
as well and overwrites the same output path with the same figure,
leaving the file system unchanged. -/
theorem C8_generate_idempotent
    (tsneE : TSNEParams → List (List ℚ) → Except PyError (List Vec3))
    (self : TSNECaption3DScatter) (fs fs' : FS)
    (h : TSNECaption3DScatter.generate tsneE okSave self fs =
      Except.ok fs') :
    TSNECaption3DScatter.generate tsneE okSave self fs' =
      Except.ok fs' := by
  cases hX : generate_tsne tsneE self with
  | error e =>
    rw [generate_eq_error tsneE okSave self fs e hX] at h
    cases h
  | ok X_3d =>
    cases hc : plotScatterCmds X_3d self.texts self.caption_size with
    | none =>
      rw [generate_eq_indexError tsneE okSave self fs X_3d hX hc] at h
      cases h
    | some cmds =>
      rw [generate_eq_save tsneE okSave self fs X_3d cmds hX hc] at h
      rw [generate_eq_save tsneE okSave self fs' X_3d cmds hX hc]
      simp only [okSave] at h ⊢
      have hfs' : savefig fs self.output_name
          ⟨self.output_size, self.quality, cmds⟩ = fs' :=
        Except.ok.inj h
      rw [← hfs', savefig_idem]

/-- C8 witness: running the example `generate()` on the file system its
own first run produced succeeds and leaves it unchanged. -/
theorem C8_generate_idempotent_witness :
    TSNECaption3DScatter.generate (okTsne exTsne) okSave exSelf exFS =
      Except.ok exFS :=
  C8_generate_idempotent (okTsne exTsne) exSelf [] exFS (generate_ex_eval [])
